import Mathlib

/-!
Shallow embedding of the HadithGPT retrieval pipeline (src/api/main.py).

Remote services (OpenAI chat completions, OpenAI embeddings, Pinecone indexes)
are modelled as oracles packaged in an `Env`: each field holds the response the
service would give for the one call the pipeline makes to it in a request
(per-collection for the vector store).  A successful inference call carries
`Option String` because the client's message content can be `None`, in which
case the Python code's `.strip()` raises and the surrounding `except` fires.
The pipeline also returns the list of remote calls it issued, in order, so
that "no call was made before/after X" properties are statable.

Floating-point similarity scores are modelled as `Rat`: every property below
depends only on the ordering of scores.  The `timestamp` response field
(wall-clock time) is omitted from the model.
-/

namespace HadithGPT

/-- One retrieved record, as assembled by `search_collection`
(`HadithResult` in the source). -/
structure Hit where
  score : Rat
  collection : String
  hadith_id : Int
  collection_reference : String
  in_book_reference : String
  web_reference : String
  grading : String
  narrator : String
  text : String
  arabic : String
deriving DecidableEq

/-- A raw match returned by the vector store for one collection, before
`search_collection` attaches the collection name (`match.score` plus the
metadata fields read from `match.metadata`). -/
structure StoreMatch where
  score : Rat
  hadith_id : Int
  collection_reference : String
  in_book_reference : String
  web_reference : String
  grading : String
  narrator : String
  text : String
  arabic : String
deriving DecidableEq

/-- One cluster as parsed from the clustering model's JSON answer
(`HadithCluster` in the source). -/
structure HadithCluster where
  event_title : String
  primary_index : Int
  hadith_indices : List Int
  reasoning : Option String
deriving DecidableEq

/-- The request body (`QueryRequest` in the source).  `top_k` is optional with
Pydantic default 10; the handler additionally applies Python truthiness
(`request.top_k if request.top_k else 10`). -/
structure QueryRequest where
  query : String
  user_id : Option String := none
  session_id : Option String := none
  top_k : Option Nat := some 10
  collections : Option (List String) := none
deriving DecidableEq

/-- The response body (`QueryResponse` in the source), minus the wall-clock
`timestamp` field. -/
structure QueryResponse where
  query : String
  enhanced_query : String
  query_type : String
  message : Option String
  results : List Hit
  total_results : Nat
  searched_collections : List String
  clusters : Option (List HadithCluster)
deriving DecidableEq

/-- A FastAPI `HTTPException` surfaced to the caller. -/
structure HTTPError where
  status_code : Nat
  detail : String
deriving DecidableEq

/-- Outcome of the clustering inference call, after the `json.loads` step:
either the call/parse raised (`failure`), or the parsed JSON object has no
`clusters` key, or it parses with a (possibly empty) clusters list. -/
inductive ClusterResponse where
  | failure (e : String)
  | missingClustersField
  | parsed (clusters : List HadithCluster)
deriving DecidableEq

/-- Oracle responses of the remote services for one request. -/
structure Env where
  classifyResp : Except String (Option String)
  enhanceResp : Except String (Option String)
  embedResp : Except String (List Rat)
  searchResp : String → Except String (List StoreMatch)
  clusterResp : ClusterResponse

/-- One remote call issued by the pipeline. -/
inductive RemoteCall where
  | classify
  | enhance
  | embed
  | search (collection : String)
  | cluster
deriving DecidableEq

/-- Python's `str.strip()`: drop whitespace from both ends. -/
def pyStrip (s : String) : String :=
  ⟨((s.data.dropWhile Char.isWhitespace).reverse.dropWhile
      Char.isWhitespace).reverse⟩

/-- Python's `str.upper()`: uppercase every character. -/
def pyUpper (s : String) : String :=
  ⟨s.data.map Char.toUpper⟩

/-- Substring test, modelling Python's `in` on strings. -/
def strContains (s pat : String) : Bool :=
  decide (pat.toList <:+: s.toList)

/-- Canned reply for greetings (string literal from `classify_query`). -/
def greetingMessage : String :=
  "وعليكم السلام! (Wa alaikum salaam!) Welcome! 🤲 I\x27m here to help you find Hadiths."

/-- Canned reply for off-topic queries (string literal from `classify_query`). -/
def offTopicMessage : String :=
  "I specialize in finding Hadiths. Ask me about what the Prophet Muhammad (ﷺ) said or did!"

/-- `classify_query` (main.py:169).  On a delivered response the code takes
`content.strip().upper()` and matches `"HADITH_QUERY"`, then `"GREETING"`, as
substrings, defaulting to `OFF_TOPIC`.  A transport error, and equally a
response whose message content is `None` (whose `.strip()` raises), land in
the `except` branch which returns `("HADITH_QUERY", "")`. -/
def classify_query (resp : Except String (Option String)) (_query : String) :
    String × String :=
  match resp with
  | .error _ => ("HADITH_QUERY", "")
  | .ok none => ("HADITH_QUERY", "")
  | .ok (some content) =>
    let classification := pyUpper (pyStrip content)
    if strContains classification "HADITH_QUERY" then
      ("HADITH_QUERY", "")
    else if strContains classification "GREETING" then
      ("GREETING", greetingMessage)
    else
      ("OFF_TOPIC", offTopicMessage)

/-- `enhance_query` (main.py:214).  On success the result is
`f"{query} {enhanced}"` with `enhanced = content.strip()`; a transport error,
or a `None` content (whose `.strip()` raises), is caught and the original
query is returned unchanged. -/
def enhance_query (resp : Except String (Option String)) (query : String) :
    String :=
  match resp with
  | .error _ => query
  | .ok none => query
  | .ok (some content) => query ++ " " ++ pyStrip content

/-- `create_embedding` (main.py:269): a provider failure is re-raised as an
HTTP 500 `HTTPException`. -/
def create_embedding (resp : Except String (List Rat)) :
    Except HTTPError (List Rat) :=
  match resp with
  | .ok v => .ok v
  | .error e => .error ⟨500, "Failed to create embedding: " ++ e⟩

/-- Conversion of one vector-store match into a result record, attaching the
collection name, as in the loop of `search_collection` (main.py:296). -/
def matchToHit (index_name : String) (m : StoreMatch) : Hit :=
  { score := m.score
    collection := index_name
    hadith_id := m.hadith_id
    collection_reference := m.collection_reference
    in_book_reference := m.in_book_reference
    web_reference := m.web_reference
    grading := m.grading
    narrator := m.narrator
    text := m.text
    arabic := m.arabic }

/-- `search_collection` (main.py:285): any exception while querying one index
is caught and that collection contributes the empty list. -/
def search_collection (resp : Except String (List StoreMatch))
    (index_name : String) : List Hit :=
  match resp with
  | .ok ms => ms.map (matchToHit index_name)
  | .error _ => []

/-- `cluster_hadiths` (main.py:318).  Fewer than two hits returns `None`
before any inference call.  Otherwise one inference call is made; a transport
or parse failure, a parsed object with no `clusters` key, and a parsed empty
clusters list all yield `None`; a nonempty parsed clusters list is returned
as is.  The second component records whether the inference call was issued. -/
def cluster_hadiths (resp : ClusterResponse) (hadiths : List Hit) :
    Option (List HadithCluster) × List RemoteCall :=
  if hadiths.length < 2 then
    (none, [])
  else
    (match resp with
     | .failure _ => none
     | .missingClustersField => none
     | .parsed clusters => if clusters.length = 0 then none else some clusters,
     [RemoteCall.cluster])

/-- The Boolean comparison handed to the stable sort: Python's
`sort(key=lambda x: x["score"], reverse=True)` orders by score descending and
keeps the original order of equal-score elements. -/
def scoreLe (a b : Hit) : Bool :=
  decide (b.score ≤ a.score)

/-- Steps 6–7 of `search_hadiths` (main.py:543-551): concatenate the
per-collection hit lists in collection order, stable-sort by score
descending, truncate to the first `top_k`. -/
def aggregate (hit_lists : List (List Hit)) (top_k : Nat) : List Hit :=
  ((hit_lists.flatMap id).mergeSort scoreLe).take top_k

/-- `top_k = request.top_k if request.top_k else 10` (main.py:514),
with Python truthiness (`None` and `0` both fall back to 10). -/
def requestTopK (request : QueryRequest) : Nat :=
  match request.top_k with
  | some k => if k ≠ 0 then k else 10
  | none => 10

/-- Step 5 of `search_hadiths` (main.py:525-541): resolve the collections to
search.  A truthy `request.collections` is validated against the known
indexes — any unknown name is a 400 error listing the invalid and the
available names; otherwise the known indexes are used. -/
def collectionsToSearch (available_indexes : List String)
    (requested : Option (List String)) : Except HTTPError (List String) :=
  match requested with
  | some cols =>
    if cols.isEmpty then
      .ok available_indexes
    else
      let invalid := cols.filter (fun c => !available_indexes.contains c)
      if invalid.isEmpty then
        .ok cols
      else
        .error ⟨400, "Invalid collections: " ++ String.intercalate ", " invalid
          ++ ". Available: " ++ String.intercalate ", " available_indexes⟩
  | none => .ok available_indexes

/-- The `/search` handler `search_hadiths` (main.py:485-575), returning the
outcome together with the ordered list of remote calls issued.
Order of operations follows the source: classify, early-exit on a
non-`HADITH_QUERY` intent, enhance, embed (a failure there propagates as the
500 error), resolve and validate the collection list, 404 when it is empty,
fan out the per-collection searches, aggregate, and cluster when at least two
results survived. -/
def search_hadiths (env : Env) (available_indexes : List String)
    (request : QueryRequest) :
    Except HTTPError QueryResponse × List RemoteCall :=
  let qc := classify_query env.classifyResp request.query
  if qc.1 ≠ "HADITH_QUERY" then
    (.ok { query := request.query
           enhanced_query := request.query
           query_type := qc.1
           message := some qc.2
           results := []
           total_results := 0
           searched_collections := []
           clusters := none },
     [RemoteCall.classify])
  else
    let top_k := requestTopK request
    let enhanced_query := enhance_query env.enhanceResp request.query
    match create_embedding env.embedResp with
    | .error e =>
      (.error e, [RemoteCall.classify, RemoteCall.enhance, RemoteCall.embed])
    | .ok _query_vector =>
      match collectionsToSearch available_indexes request.collections with
      | .error e =>
        (.error e, [RemoteCall.classify, RemoteCall.enhance, RemoteCall.embed])
      | .ok collections_to_search =>
        if collections_to_search.isEmpty then
          (.error ⟨404,
             "No hadith collections found. Please run embed_hadiths.py first."⟩,
           [RemoteCall.classify, RemoteCall.enhance, RemoteCall.embed])
        else
          let hit_lists := collections_to_search.map
            (fun c => search_collection (env.searchResp c) c)
          let top_results := aggregate hit_lists top_k
          let cl :=
            if 2 ≤ top_results.length then
              cluster_hadiths env.clusterResp top_results
            else
              (none, [])
          let clusters : Option (List HadithCluster) :=
            match cl.1 with
            | some cs => if cs.isEmpty then none else some cs
            | none => none
          (.ok { query := request.query
                 enhanced_query := enhanced_query
                 query_type := qc.1
                 message := none
                 results := top_results
                 total_results := top_results.length
                 searched_collections := collections_to_search
                 clusters := clusters },
           [RemoteCall.classify, RemoteCall.enhance, RemoteCall.embed]
             ++ collections_to_search.map RemoteCall.search ++ cl.2)

/-- The result list of the content branch: per-collection searches in
collection order, aggregated with the requested `top_k`. -/
def contentResults (env : Env) (request : QueryRequest) (cols : List String) :
    List Hit :=
  aggregate (cols.map fun c => search_collection (env.searchResp c) c)
    (requestTopK request)

/-- The clusters field of the content branch. -/
def contentClusters (env : Env) (request : QueryRequest) (cols : List String) :
    Option (List HadithCluster) :=
  match (if 2 ≤ (contentResults env request cols).length then
           cluster_hadiths env.clusterResp (contentResults env request cols)
         else (none, [])).1 with
  | some cs => if cs.isEmpty then none else some cs
  | none => none

/- Characterization lemmas for the four ways a request can travel through
`search_hadiths`. -/

theorem search_hadiths_earlyExit (env : Env) (avail : List String)
    (request : QueryRequest)
    (h : (classify_query env.classifyResp request.query).1 ≠ "HADITH_QUERY") :
    search_hadiths env avail request =
      (.ok { query := request.query
             enhanced_query := request.query
             query_type := (classify_query env.classifyResp request.query).1
             message := some (classify_query env.classifyResp request.query).2
             results := []
             total_results := 0
             searched_collections := []
             clusters := none },
       [RemoteCall.classify]) := by
  simp only [search_hadiths]
  rw [if_pos h]

theorem search_hadiths_embedFail (env : Env) (avail : List String)
    (request : QueryRequest) (e : String)
    (hclass : (classify_query env.classifyResp request.query).1 =
      "HADITH_QUERY")
    (hembed : env.embedResp = .error e) :
    search_hadiths env avail request =
      (.error ⟨500, "Failed to create embedding: " ++ e⟩,
       [RemoteCall.classify, RemoteCall.enhance, RemoteCall.embed]) := by
  simp only [search_hadiths, hclass, hembed, create_embedding]
  simp

theorem search_hadiths_colsFail (env : Env) (avail : List String)
    (request : QueryRequest) (v : List Rat) (err : HTTPError)
    (hclass : (classify_query env.classifyResp request.query).1 =
      "HADITH_QUERY")
    (hembed : env.embedResp = .ok v)
    (hcols : collectionsToSearch avail request.collections = .error err) :
    search_hadiths env avail request =
      (.error err,
       [RemoteCall.classify, RemoteCall.enhance, RemoteCall.embed]) := by
  simp only [search_hadiths, hclass, hembed, create_embedding, hcols]
  simp

theorem search_hadiths_noCols (env : Env) (avail : List String)
    (request : QueryRequest) (v : List Rat) (cols : List String)
    (hclass : (classify_query env.classifyResp request.query).1 =
      "HADITH_QUERY")
    (hembed : env.embedResp = .ok v)
    (hcols : collectionsToSearch avail request.collections = .ok cols)
    (hne : cols.isEmpty = true) :
    search_hadiths env avail request =
      (.error ⟨404,
         "No hadith collections found. Please run embed_hadiths.py first."⟩,
       [RemoteCall.classify, RemoteCall.enhance, RemoteCall.embed]) := by
  simp only [search_hadiths, hclass, hembed, create_embedding, hcols, hne]
  simp

theorem search_hadiths_content (env : Env) (avail : List String)
    (request : QueryRequest) (v : List Rat) (cols : List String)
    (hclass : (classify_query env.classifyResp request.query).1 =
      "HADITH_QUERY")
    (hembed : env.embedResp = .ok v)
    (hcols : collectionsToSearch avail request.collections = .ok cols)
    (hne : cols.isEmpty = false) :
    search_hadiths env avail request =
      (.ok { query := request.query
             enhanced_query := enhance_query env.enhanceResp request.query
             query_type := "HADITH_QUERY"
             message := none
             results := contentResults env request cols
             total_results := (contentResults env request cols).length
             searched_collections := cols
             clusters := contentClusters env request cols },
       [RemoteCall.classify, RemoteCall.enhance, RemoteCall.embed]
         ++ cols.map RemoteCall.search
         ++ (if 2 ≤ (contentResults env request cols).length then
               [RemoteCall.cluster]
             else [])) := by
  simp only [search_hadiths, hclass, hembed, create_embedding, hcols, hne,
    contentResults, contentClusters, aggregate]
  simp only [cluster_hadiths]
  by_cases h2 : 2 ≤ (contentResults env request cols).length
  · simp only [contentResults, aggregate] at h2
    rw [if_pos h2, if_pos h2, if_neg (by omega : ¬ _ < 2)]
    simp
  · simp only [contentResults, aggregate] at h2
    rw [if_neg h2, if_neg h2]
    simp

/- Properties of the score comparison and of the aggregation. -/

theorem scoreLe_trans : ∀ (a b c : Hit), scoreLe a b → scoreLe b c → scoreLe a c := by
  intro a b c hab hbc
  simp only [scoreLe, decide_eq_true_eq] at hab hbc ⊢
  exact le_trans hbc hab

theorem scoreLe_total : ∀ (a b : Hit), scoreLe a b || scoreLe b a := by
  intro a b
  simp only [scoreLe, Bool.or_eq_true, decide_eq_true_eq]
  exact le_total b.score a.score

theorem aggregate_length_le (hit_lists : List (List Hit)) (top_k : Nat) :
    (aggregate hit_lists top_k).length ≤ top_k := by
  simp only [aggregate]
  exact List.length_take_le _ _

theorem aggregate_score_nonincreasing (hit_lists : List (List Hit))
    (top_k : Nat) :
    (aggregate hit_lists top_k).Pairwise (fun a b => b.score ≤ a.score) := by
  have hs := List.sorted_mergeSort scoreLe_trans scoreLe_total
    (hit_lists.flatMap id)
  have hp : ((hit_lists.flatMap id).mergeSort scoreLe).Pairwise
      (fun a b => b.score ≤ a.score) := by
    refine hs.imp ?_
    intro a b h
    simpa [scoreLe] using h
  exact hp.sublist (List.take_sublist _ _)

theorem aggregate_stable (hit_lists : List (List Hit))
    (dup : List Hit) (hsub : List.Sublist dup (hit_lists.flatMap id))
    (heq : dup.Pairwise fun a b => a.score = b.score) :
    List.Sublist dup ((hit_lists.flatMap id).mergeSort scoreLe) := by
  refine List.sublist_mergeSort scoreLe_trans scoreLe_total ?_ hsub
  refine heq.imp ?_
  intro a b h
  simp [scoreLe, h]

theorem classify_query_message_nonempty (resp : Except String (Option String))
    (q : String)
    (h : (classify_query resp q).1 ≠ "HADITH_QUERY") :
    (classify_query resp q).2 ≠ "" := by
  match resp with
  | .error e => exact absurd rfl h
  | .ok none => exact absurd rfl h
  | .ok (some content) =>
    simp only [classify_query] at h ⊢
    split_ifs at h ⊢ with h1 h2
    · exact absurd rfl h
    · decide
    · decide

/-- C1: in the content branch the aggregated result set is exactly the
concatenation of the per-collection hit lists (in collection order),
stable-sorted by score descending and truncated to `top_k`; hence its length
is at most the requested `top_k`, its scores are nonincreasing, and any
family of equal-score hits keeps the relative order of the concatenation in
the sorted list the truncation is taken from. -/
theorem aggregated_resultset_topk_sorted_stable (env : Env)
    (avail : List String) (request : QueryRequest) (v : List Rat)
    (cols : List String)
    (hclass : (classify_query env.classifyResp request.query).1 =
      "HADITH_QUERY")
    (hembed : env.embedResp = .ok v)
    (hcols : collectionsToSearch avail request.collections = .ok cols)
    (hne : cols.isEmpty = false) :
    ∃ resp : QueryResponse,
      (search_hadiths env avail request).1 = .ok resp ∧
      resp.results =
        ((((cols.map fun c => search_collection (env.searchResp c) c).flatMap
            id).mergeSort scoreLe).take (requestTopK request)) ∧
      resp.results.length ≤ requestTopK request ∧
      resp.results.Pairwise (fun a b => b.score ≤ a.score) ∧
      (∀ dup : List Hit,
        List.Sublist dup ((cols.map fun c =>
          search_collection (env.searchResp c) c).flatMap id) →
        dup.Pairwise (fun a b => a.score = b.score) →
        List.Sublist dup (((cols.map fun c =>
          search_collection (env.searchResp c) c).flatMap id).mergeSort
            scoreLe)) := by
  rw [search_hadiths_content env avail request v cols hclass hembed hcols hne]
  refine ⟨_, rfl, rfl, ?_, ?_, ?_⟩
  · exact aggregate_length_le _ _
  · exact aggregate_score_nonincreasing _ _
  · intro dup hsub heq
    exact aggregate_stable _ dup hsub heq

/-- C4: a failing collection search contributes the empty list while the
sibling collections and the request proceed: the response is a success whose
results equal the top-k aggregation in which the failed collection's list is
replaced by `[]`, and `searched_collections` still lists every attempted
collection, including the failed one. -/
theorem collection_failure_isolated (env : Env) (avail : List String)
    (request : QueryRequest) (v : List Rat) (cols : List String)
    (b : String) (e : String)
    (hclass : (classify_query env.classifyResp request.query).1 =
      "HADITH_QUERY")
    (hembed : env.embedResp = .ok v)
    (hcols : collectionsToSearch avail request.collections = .ok cols)
    (hne : cols.isEmpty = false)
    (hb : b ∈ cols)
    (hfail : env.searchResp b = .error e) :
    ∃ resp : QueryResponse,
      (search_hadiths env avail request).1 = .ok resp ∧
      search_collection (env.searchResp b) b = [] ∧
      resp.results =
        aggregate (cols.map fun c =>
          if c = b then [] else search_collection (env.searchResp c) c)
          (requestTopK request) ∧
      resp.searched_collections = cols ∧
      b ∈ resp.searched_collections := by
  rw [search_hadiths_content env avail request v cols hclass hembed hcols hne]
  refine ⟨_, rfl, ?_, ?_, rfl, hb⟩
  · simp [search_collection, hfail]
  · simp only [contentResults]
    congr 1
    refine List.map_congr_left ?_
    intro c _hc
    by_cases hcb : c = b
    · subst hcb
      simp [search_collection, hfail]
    · rw [if_neg hcb]

/-- C5: the output of query enhancement always starts with the original
query text; on a delivered elaboration it is the original text, a space, and
the stripped elaboration, and on any inference failure (a raised error, or a
response with no content, whose `.strip()` raises) it is the original query
unchanged. -/
theorem enhancement_preserves_original_as_prefix
    (resp : Except String (Option String)) (query : String) :
    (∃ t : String, enhance_query resp query = query ++ t) ∧
    (∀ s, resp = .ok (some s) →
      enhance_query resp query = query ++ " " ++ pyStrip s) ∧
    (∀ e, resp = .error e → enhance_query resp query = query) ∧
    (resp = .ok none → enhance_query resp query = query) := by
  refine ⟨?_, ?_, ?_, ?_⟩
  · match resp with
    | .error e => exact ⟨"", by simp [enhance_query]⟩
    | .ok none => exact ⟨"", by simp [enhance_query]⟩
    | .ok (some s) =>
      exact ⟨" " ++ pyStrip s, by simp [enhance_query, String.append_assoc]⟩
  · intro s hs
    subst hs
    rfl
  · intro e he
    subst he
    rfl
  · intro h
    subst h
    rfl

/-- C6: when the intent is a content query and the embedding call fails, the
request terminates with the fatal 500 error from `create_embedding` and no
collection search call is ever issued. -/
theorem embedding_failure_fatal_no_search (env : Env) (avail : List String)
    (request : QueryRequest) (e : String)
    (hclass : (classify_query env.classifyResp request.query).1 =
      "HADITH_QUERY")
    (hembed : env.embedResp = .error e) :
    (search_hadiths env avail request).1 =
      .error ⟨500, "Failed to create embedding: " ++ e⟩ ∧
    ∀ c, RemoteCall.search c ∉ (search_hadiths env avail request).2 := by
  rw [search_hadiths_embedFail env avail request e hclass hembed]
  refine ⟨rfl, ?_⟩
  intro c
  simp

/-- C7: a request classified GREETING or OFF_TOPIC returns the early-exit
response with an empty result list, zero total, empty searched-collections
list, and the (nonempty) canned message, and the only remote call issued is
the classification itself — no embedding and no collection search. -/
theorem greeting_offtopic_early_exit (env : Env) (avail : List String)
    (request : QueryRequest)
    (hintent : (classify_query env.classifyResp request.query).1 =
        "GREETING" ∨
      (classify_query env.classifyResp request.query).1 = "OFF_TOPIC") :
    (search_hadiths env avail request).1 = .ok
      { query := request.query
        enhanced_query := request.query
        query_type := (classify_query env.classifyResp request.query).1
        message := some (classify_query env.classifyResp request.query).2
        results := []
        total_results := 0
        searched_collections := []
        clusters := none } ∧
    (classify_query env.classifyResp request.query).2 ≠ "" ∧
    (search_hadiths env avail request).2 = [RemoteCall.classify] := by
  have hne : (classify_query env.classifyResp request.query).1 ≠
      "HADITH_QUERY" := by
    rcases hintent with h | h <;> rw [h] <;> decide
  rw [search_hadiths_earlyExit env avail request hne]
  exact ⟨rfl, classify_query_message_nonempty _ _ hne, rfl⟩

/-- C8: any failure of the classification inference call — a raised error
(timeout, transport error) or a response carrying no content (whose
`.strip()` raises) — is caught and yields intent HADITH_QUERY with an empty
message, and the pipeline then proceeds to the enhancement stage rather than
being blocked. -/
theorem classifier_failopen_contentquery (env : Env) (avail : List String)
    (request : QueryRequest)
    (hfail : (∃ e, env.classifyResp = .error e) ∨
      env.classifyResp = .ok none) :
    classify_query env.classifyResp request.query = ("HADITH_QUERY", "") ∧
    RemoteCall.enhance ∈ (search_hadiths env avail request).2 := by
  have hcq : classify_query env.classifyResp request.query =
      ("HADITH_QUERY", "") := by
    rcases hfail with ⟨e, he⟩ | he <;> rw [he] <;> rfl
  refine ⟨hcq, ?_⟩
  have hclass : (classify_query env.classifyResp request.query).1 =
      "HADITH_QUERY" := by rw [hcq]
  cases hembed : env.embedResp with
  | error e =>
    rw [search_hadiths_embedFail env avail request e hclass hembed]
    simp
  | ok v =>
    cases hcols : collectionsToSearch avail request.collections with
    | error err =>
      rw [search_hadiths_colsFail env avail request v err hclass hembed hcols]
      simp
    | ok cols =>
      cases hne : cols.isEmpty with
      | true =>
        rw [search_hadiths_noCols env avail request v cols hclass hembed
          hcols hne]
        simp
      | false =>
        rw [search_hadiths_content env avail request v cols hclass hembed
          hcols hne]
        simp

/-- C10: every successful response, early-exit or full content branch, has
`total_results` equal to the length of its result list. -/
theorem total_results_eq_length (env : Env) (avail : List String)
    (request : QueryRequest) (resp : QueryResponse)
    (hok : (search_hadiths env avail request).1 = .ok resp) :
    resp.total_results = resp.results.length := by
  by_cases hclass : (classify_query env.classifyResp request.query).1 =
      "HADITH_QUERY"
  · cases hembed : env.embedResp with
    | error e =>
      rw [search_hadiths_embedFail env avail request e hclass hembed] at hok
      simp at hok
    | ok v =>
      cases hcols : collectionsToSearch avail request.collections with
      | error err =>
        rw [search_hadiths_colsFail env avail request v err hclass hembed
          hcols] at hok
        simp at hok
      | ok cols =>
        cases hne : cols.isEmpty with
        | true =>
          rw [search_hadiths_noCols env avail request v cols hclass hembed
            hcols hne] at hok
          simp at hok
        | false =>
          rw [search_hadiths_content env avail request v cols hclass hembed
            hcols hne] at hok
          simp only [Except.ok.injEq] at hok
          subst hok
          simp
  · rw [search_hadiths_earlyExit env avail request hclass] at hok
    simp only [Except.ok.injEq] at hok
    subst hok
    simp

/-- Shape of every successful response: either the early-exit record, or the
content-branch record together with its trace. -/
theorem search_hadiths_ok_shape (env : Env) (avail : List String)
    (request : QueryRequest) (resp : QueryResponse)
    (hok : (search_hadiths env avail request).1 = .ok resp) :
    (resp.results = [] ∧ resp.clusters = none ∧
      (search_hadiths env avail request).2 = [RemoteCall.classify]) ∨
    (∃ cols,
      resp.results = contentResults env request cols ∧
      resp.clusters = contentClusters env request cols ∧
      (search_hadiths env avail request).2 =
        [RemoteCall.classify, RemoteCall.enhance, RemoteCall.embed]
          ++ cols.map RemoteCall.search
          ++ (if 2 ≤ (contentResults env request cols).length then
                [RemoteCall.cluster]
              else [])) := by
  by_cases hclass : (classify_query env.classifyResp request.query).1 =
      "HADITH_QUERY"
  · cases hembed : env.embedResp with
    | error e =>
      rw [search_hadiths_embedFail env avail request e hclass hembed] at hok
      simp at hok
    | ok v =>
      cases hcols : collectionsToSearch avail request.collections with
      | error err =>
        rw [search_hadiths_colsFail env avail request v err hclass hembed
          hcols] at hok
        simp at hok
      | ok cols =>
        cases hne : cols.isEmpty with
        | true =>
          rw [search_hadiths_noCols env avail request v cols hclass hembed
            hcols hne] at hok
          simp at hok
        | false =>
          rw [search_hadiths_content env avail request v cols hclass hembed
            hcols hne] at hok
          simp only [Except.ok.injEq] at hok
          subst hok
          refine Or.inr ⟨cols, rfl, rfl, ?_⟩
          rw [search_hadiths_content env avail request v cols hclass hembed
            hcols hne]
  · rw [search_hadiths_earlyExit env avail request hclass] at hok
    simp only [Except.ok.injEq] at hok
    subst hok
    refine Or.inl ⟨rfl, rfl, ?_⟩
    rw [search_hadiths_earlyExit env avail request hclass]

theorem contentClusters_of_short (env : Env) (request : QueryRequest)
    (cols : List String)
    (h : (contentResults env request cols).length < 2) :
    contentClusters env request cols = none := by
  simp only [contentClusters]
  rw [if_neg (by omega)]

theorem contentClusters_parsed_nil (env : Env) (request : QueryRequest)
    (cols : List String) (h : env.clusterResp = .parsed []) :
    contentClusters env request cols = none := by
  simp only [contentClusters]
  by_cases h2 : 2 ≤ (contentResults env request cols).length
  · rw [if_pos h2]
    simp only [cluster_hadiths, h]
    rw [if_neg (by omega)]
    simp
  · rw [if_neg h2]

theorem contentClusters_ne_some_nil (env : Env) (request : QueryRequest)
    (cols : List String) :
    contentClusters env request cols ≠ some [] := by
  simp only [contentClusters]
  cases hx : (if 2 ≤ (contentResults env request cols).length then
      cluster_hadiths env.clusterResp (contentResults env request cols)
    else (none, [])).1 with
  | none => simp
  | some cs =>
    cases hcs : cs.isEmpty with
    | true => simp [hcs]
    | false =>
      simp only [hcs, Bool.false_eq_true, if_false, ne_eq, Option.some.injEq]
      intro h
      subst h
      simp at hcs

/-- C9: every successful response with fewer than two hits has an absent
clusters field and issued no clustering inference call; whenever the
clustering response parses to an empty clusters list the clusters field is
likewise absent; and the clusters field is never the empty list. -/
theorem short_resultset_no_cluster_call_empty_absent (env : Env)
    (avail : List String) (request : QueryRequest) (resp : QueryResponse)
    (hok : (search_hadiths env avail request).1 = .ok resp) :
    (resp.results.length < 2 →
      resp.clusters = none ∧
      RemoteCall.cluster ∉ (search_hadiths env avail request).2) ∧
    (env.clusterResp = .parsed [] → resp.clusters = none) ∧
    resp.clusters ≠ some [] := by
  rcases search_hadiths_ok_shape env avail request resp hok with
    ⟨_hres, hcl, htr⟩ | ⟨cols, hres, hcl, htr⟩
  · refine ⟨fun _ => ⟨hcl, ?_⟩, fun _ => hcl, by simp [hcl]⟩
    rw [htr]
    simp
  · refine ⟨?_, ?_, ?_⟩
    · intro hshort
      rw [hres] at hshort
      refine ⟨?_, ?_⟩
      · rw [hcl]
        exact contentClusters_of_short env request cols hshort
      · rw [htr, if_neg (by omega)]
        simp
    · intro hparsed
      rw [hcl]
      exact contentClusters_parsed_nil env request cols hparsed
    · rw [hcl]
      exact contentClusters_ne_some_nil env request cols

theorem collectionsToSearch_invalid (avail cols : List String)
    (hinv : (cols.filter fun c => !avail.contains c) ≠ []) :
    collectionsToSearch avail (some cols) =
      .error ⟨400, "Invalid collections: "
        ++ String.intercalate ", " (cols.filter fun c => !avail.contains c)
        ++ ". Available: " ++ String.intercalate ", " avail⟩ := by
  have hne : cols.isEmpty = false := by
    cases cols with
    | nil => simp at hinv
    | cons a l => rfl
  have hfe : ((cols.filter fun c => !avail.contains c).isEmpty) = false := by
    cases hx : cols.filter fun c => !avail.contains c with
    | nil => exact absurd hx hinv
    | cons a l => rfl
  simp only [collectionsToSearch, hne, hfe]
  simp

/-- C2 (amended): a request explicitly naming an unknown collection — when
its intent is a content query and the embedding call succeeded — is rejected
with a 400 client error listing both the invalid and the available names,
before any collection-search call is issued; but the classification,
enhancement and embedding remote calls have already been made by then. -/
theorem invalid_collections_rejected_before_search (env : Env)
    (avail : List String) (request : QueryRequest) (v : List Rat)
    (cols : List String)
    (hclass : (classify_query env.classifyResp request.query).1 =
      "HADITH_QUERY")
    (hembed : env.embedResp = .ok v)
    (hreq : request.collections = some cols)
    (hinv : (cols.filter fun c => !avail.contains c) ≠ []) :
    (search_hadiths env avail request).1 =
      .error ⟨400, "Invalid collections: "
        ++ String.intercalate ", " (cols.filter fun c => !avail.contains c)
        ++ ". Available: " ++ String.intercalate ", " avail⟩ ∧
    (search_hadiths env avail request).2 =
      [RemoteCall.classify, RemoteCall.enhance, RemoteCall.embed] ∧
    ∀ c, RemoteCall.search c ∉ (search_hadiths env avail request).2 := by
  have hcols : collectionsToSearch avail request.collections =
      .error ⟨400, "Invalid collections: "
        ++ String.intercalate ", " (cols.filter fun c => !avail.contains c)
        ++ ". Available: " ++ String.intercalate ", " avail⟩ := by
    rw [hreq]
    exact collectionsToSearch_invalid avail cols hinv
  rw [search_hadiths_colsFail env avail request v _ hclass hembed hcols]
  refine ⟨rfl, rfl, ?_⟩
  intro c
  simp

/-- C3 (amended): the clusters returned by a successful content-branch
response are exactly the clusters parsed from the inference provider's
answer, passed through without any duplicate-index validation; the
no-repeated-index invariant therefore holds only when the provider's output
already satisfies it. -/
theorem clusters_passthrough_unvalidated (env : Env) (avail : List String)
    (request : QueryRequest) (v : List Rat) (cols : List String)
    (cs : List HadithCluster)
    (hclass : (classify_query env.classifyResp request.query).1 =
      "HADITH_QUERY")
    (hembed : env.embedResp = .ok v)
    (hcols : collectionsToSearch avail request.collections = .ok cols)
    (hne : cols.isEmpty = false)
    (hcl : env.clusterResp = .parsed cs)
    (hcs : cs ≠ [])
    (h2 : 2 ≤ (contentResults env request cols).length) :
    ∃ resp : QueryResponse,
      (search_hadiths env avail request).1 = .ok resp ∧
      resp.clusters = some cs := by
  rw [search_hadiths_content env avail request v cols hclass hembed hcols hne]
  refine ⟨_, rfl, ?_⟩
  simp only [contentClusters]
  rw [if_pos h2]
  simp only [cluster_hadiths, hcl]
  rw [if_neg (by omega)]
  have hlen : cs.length = 0 ↔ False := by
    simp [List.length_eq_zero, hcs]
  have hemp : cs.isEmpty = false := by
    cases hx : cs with
    | nil => exact absurd hx hcs
    | cons a l => rfl
  simp [hlen, hemp]

/- Concrete fixtures for the closed theorems (counterexamples and witnesses)
below. -/

def storeMatchHigh : StoreMatch :=
  { score := 1, hadith_id := 1, collection_reference := "Bukhari 1"
    in_book_reference := "Book 1", web_reference := "w1", grading := "sahih"
    narrator := "Narrated Abu Hurairah", text := "first text"
    arabic := "" }

def storeMatchLow : StoreMatch :=
  { score := 0, hadith_id := 2, collection_reference := "Bukhari 2"
    in_book_reference := "Book 2", web_reference := "w2", grading := "sahih"
    narrator := "Narrated Anas", text := "second text", arabic := "" }

def clusterOne : HadithCluster :=
  { event_title := "Event one", primary_index := 0
    hadith_indices := [0, 1], reasoning := none }

def clusterTwo : HadithCluster :=
  { event_title := "Event two", primary_index := 1
    hadith_indices := [1], reasoning := none }

def reqPlain : QueryRequest :=
  { query := "What did the Prophet say about prayer?" }

def reqInvalid : QueryRequest :=
  { query := "What did the Prophet say about prayer?"
    collections := some ["bad"] }

def envBase : Env :=
  { classifyResp := .error "timeout"
    enhanceResp := .error "timeout"
    embedResp := .ok [1]
    searchResp := fun _ => .ok []
    clusterResp := .failure "timeout" }

def envTwoHits : Env :=
  { envBase with
    searchResp := fun _ => .ok [storeMatchHigh, storeMatchLow]
    clusterResp := .parsed [clusterOne, clusterTwo] }

def envOneHit : Env :=
  { envBase with
    searchResp := fun c => if c = "a" then .ok [storeMatchHigh]
      else .error "connection reset" }

def envEmbedFail : Env := { envBase with embedResp := .error "boom" }

def envGreeting : Env := { envBase with classifyResp := .ok (some "GREETING") }

def envNoContent : Env := { envBase with classifyResp := .ok none }

theorem contentResults_envTwoHits :
    contentResults envTwoHits reqPlain ["b"] =
      [matchToHit "b" storeMatchHigh, matchToHit "b" storeMatchLow] := by
  have h : (["b"].map fun c =>
      search_collection (envTwoHits.searchResp c) c).flatMap id =
      [matchToHit "b" storeMatchHigh, matchToHit "b" storeMatchLow] := rfl
  simp only [contentResults, aggregate, h]
  rw [List.mergeSort_of_sorted (by decide)]
  rfl

theorem contentClusters_envTwoHits :
    contentClusters envTwoHits reqPlain ["b"] =
      some [clusterOne, clusterTwo] := by
  simp only [contentClusters, contentResults_envTwoHits]
  rw [if_pos (by decide)]
  simp only [cluster_hadiths]
  rw [if_neg (by decide)]
  rfl

/-- C3 counterexample: with an inference answer whose parsed clusters repeat
hit index 1, the successful response's cluster list contains two different
clusters whose member-index sets both contain index 1 — the pipeline performs
no duplicate-index validation. -/
theorem duplicate_index_across_clusters_cex :
    ((search_hadiths envTwoHits ["b"] reqPlain).1.map
      QueryResponse.clusters) = .ok (some [clusterOne, clusterTwo]) ∧
    (1 : Int) ∈ clusterOne.hadith_indices ∧
    (1 : Int) ∈ clusterTwo.hadith_indices ∧
    clusterOne ≠ clusterTwo := by
  refine ⟨?_, by decide, by decide, by decide⟩
  rw [search_hadiths_content envTwoHits ["b"] reqPlain [1] ["b"] rfl rfl rfl
    rfl]
  simp only [Except.map]
  rw [contentClusters_envTwoHits]

/-- C2 counterexample: a request naming the unknown collection `bad` is
indeed rejected with the 400 client error, but only after the
classification, enhancement and embedding remote calls were all issued — the
rejection does not precede every remote call. -/
theorem invalid_collection_after_remote_calls_cex :
    (search_hadiths envBase ["bukhari"] reqInvalid).1 =
      .error ⟨400, "Invalid collections: bad. Available: bukhari"⟩ ∧
    (search_hadiths envBase ["bukhari"] reqInvalid).2 =
      [RemoteCall.classify, RemoteCall.enhance, RemoteCall.embed] ∧
    RemoteCall.classify ∈ (search_hadiths envBase ["bukhari"] reqInvalid).2 ∧
    RemoteCall.embed ∈ (search_hadiths envBase ["bukhari"] reqInvalid).2 := by
  have hcols : collectionsToSearch ["bukhari"] reqInvalid.collections =
      .error ⟨400, "Invalid collections: bad. Available: bukhari"⟩ := rfl
  rw [search_hadiths_colsFail envBase ["bukhari"] reqInvalid [1] _ rfl rfl
    hcols]
  refine ⟨rfl, rfl, by simp, by simp⟩

/-- The empty content-branch response produced by `envBase` (all collection
searches return no matches). -/
def respEmpty : QueryResponse :=
  { query := reqPlain.query
    enhanced_query := reqPlain.query
    query_type := "HADITH_QUERY"
    message := none
    results := []
    total_results := 0
    searched_collections := ["bukhari"]
    clusters := none }

theorem search_hadiths_envBase_ok :
    (search_hadiths envBase ["bukhari"] reqPlain).1 = .ok respEmpty := by
  rw [search_hadiths_content envBase ["bukhari"] reqPlain [1] ["bukhari"]
    rfl rfl rfl rfl]
  have h : contentResults envBase reqPlain ["bukhari"] = [] := by
    simp [contentResults, aggregate, search_collection, envBase]
  have hc : contentClusters envBase reqPlain ["bukhari"] = none :=
    contentClusters_of_short envBase reqPlain ["bukhari"] (by rw [h]; decide)
  have he : enhance_query envBase.enhanceResp reqPlain.query =
      reqPlain.query := rfl
  simp [respEmpty, h, hc, he]

/-- Witness for C1 at a concrete environment and request. -/
theorem aggregated_resultset_topk_sorted_stable_witness :
    ∃ resp : QueryResponse,
      (search_hadiths envBase ["bukhari"] reqPlain).1 = .ok resp ∧
      resp.results =
        ((((["bukhari"].map fun c =>
          search_collection (envBase.searchResp c) c).flatMap
            id).mergeSort scoreLe).take (requestTopK reqPlain)) ∧
      resp.results.length ≤ requestTopK reqPlain ∧
      resp.results.Pairwise (fun a b => b.score ≤ a.score) ∧
      (∀ dup : List Hit,
        List.Sublist dup ((["bukhari"].map fun c =>
          search_collection (envBase.searchResp c) c).flatMap id) →
        dup.Pairwise (fun a b => a.score = b.score) →
        List.Sublist dup (((["bukhari"].map fun c =>
          search_collection (envBase.searchResp c) c).flatMap id).mergeSort
            scoreLe)) :=
  aggregated_resultset_topk_sorted_stable envBase ["bukhari"] reqPlain [1]
    ["bukhari"] rfl rfl rfl rfl

/-- Witness for the amended C2 at a concrete environment and request. -/
theorem invalid_collections_rejected_before_search_witness :
    (search_hadiths envBase ["bukhari"] reqInvalid).1 =
      .error ⟨400, "Invalid collections: "
        ++ String.intercalate ", " (["bad"].filter fun c =>
          !(List.contains ["bukhari"] c))
        ++ ". Available: " ++ String.intercalate ", " ["bukhari"]⟩ ∧
    (search_hadiths envBase ["bukhari"] reqInvalid).2 =
      [RemoteCall.classify, RemoteCall.enhance, RemoteCall.embed] ∧
    (∀ c, RemoteCall.search c ∉
      (search_hadiths envBase ["bukhari"] reqInvalid).2) :=
  invalid_collections_rejected_before_search envBase ["bukhari"] reqInvalid
    [1] ["bad"] rfl rfl rfl (by decide)

/-- Witness for the amended C3 at a concrete environment and request. -/
theorem clusters_passthrough_unvalidated_witness :
    ∃ resp : QueryResponse,
      (search_hadiths envTwoHits ["b"] reqPlain).1 = .ok resp ∧
      resp.clusters = some [clusterOne, clusterTwo] :=
  clusters_passthrough_unvalidated envTwoHits ["b"] reqPlain [1] ["b"]
    [clusterOne, clusterTwo] rfl rfl rfl rfl rfl (by decide)
    (by rw [contentResults_envTwoHits]; decide)

/-- Witness for C4 at a concrete environment in which collection `b` fails
while collection `a` succeeds. -/
theorem collection_failure_isolated_witness :
    ∃ resp : QueryResponse,
      (search_hadiths envOneHit ["a", "b"] reqPlain).1 = .ok resp ∧
      search_collection (envOneHit.searchResp "b") "b" = [] ∧
      resp.results =
        aggregate (["a", "b"].map fun c =>
          if c = "b" then [] else search_collection (envOneHit.searchResp c) c)
          (requestTopK reqPlain) ∧
      resp.searched_collections = ["a", "b"] ∧
      "b" ∈ resp.searched_collections :=
  collection_failure_isolated envOneHit ["a", "b"] reqPlain [1] ["a", "b"]
    "b" "connection reset" rfl rfl rfl rfl (by decide) rfl

/-- Witness for C5 at a concrete delivered elaboration. -/
theorem enhancement_preserves_original_as_prefix_witness :
    (∃ t : String, enhance_query (.ok (some " salah prayer "))
      "What did the Prophet say about prayer?" =
      "What did the Prophet say about prayer?" ++ t) ∧
    (∀ s, (.ok (some " salah prayer ") : Except String (Option String)) =
        .ok (some s) →
      enhance_query (.ok (some " salah prayer "))
        "What did the Prophet say about prayer?" =
        "What did the Prophet say about prayer?" ++ " " ++ pyStrip s) ∧
    (∀ e, (.ok (some " salah prayer ") : Except String (Option String)) =
        .error e →
      enhance_query (.ok (some " salah prayer "))
        "What did the Prophet say about prayer?" =
        "What did the Prophet say about prayer?") ∧
    ((.ok (some " salah prayer ") : Except String (Option String)) =
        .ok none →
      enhance_query (.ok (some " salah prayer "))
        "What did the Prophet say about prayer?" =
        "What did the Prophet say about prayer?") :=
  enhancement_preserves_original_as_prefix (.ok (some " salah prayer "))
    "What did the Prophet say about prayer?"

/-- Witness for C6 at a concrete environment whose embedding call fails. -/
theorem embedding_failure_fatal_no_search_witness :
    (search_hadiths envEmbedFail ["bukhari"] reqPlain).1 =
      .error ⟨500, "Failed to create embedding: " ++ "boom"⟩ ∧
    (∀ c, RemoteCall.search c ∉
      (search_hadiths envEmbedFail ["bukhari"] reqPlain).2) :=
  embedding_failure_fatal_no_search envEmbedFail ["bukhari"] reqPlain "boom"
    rfl rfl

/-- Witness for C7 at a concrete environment classifying the query as a
greeting. -/
theorem greeting_offtopic_early_exit_witness :
    (search_hadiths envGreeting ["bukhari"] reqPlain).1 = .ok
      { query := reqPlain.query
        enhanced_query := reqPlain.query
        query_type :=
          (classify_query envGreeting.classifyResp reqPlain.query).1
        message :=
          some (classify_query envGreeting.classifyResp reqPlain.query).2
        results := []
        total_results := 0
        searched_collections := []
        clusters := none } ∧
    (classify_query envGreeting.classifyResp reqPlain.query).2 ≠ "" ∧
    (search_hadiths envGreeting ["bukhari"] reqPlain).2 =
      [RemoteCall.classify] :=
  greeting_offtopic_early_exit envGreeting ["bukhari"] reqPlain
    (Or.inl (by decide))

/-- Witness for C8 at a concrete environment whose classification call
raises. -/
theorem classifier_failopen_contentquery_witness :
    classify_query envBase.classifyResp reqPlain.query =
      ("HADITH_QUERY", "") ∧
    RemoteCall.enhance ∈ (search_hadiths envBase ["bukhari"] reqPlain).2 :=
  classifier_failopen_contentquery envBase ["bukhari"] reqPlain
    (Or.inl ⟨"timeout", rfl⟩)

/-- Witness for C9 at a concrete environment whose searches return no
matches. -/
theorem short_resultset_no_cluster_call_empty_absent_witness :
    (respEmpty.results.length < 2 →
      respEmpty.clusters = none ∧
      RemoteCall.cluster ∉ (search_hadiths envBase ["bukhari"] reqPlain).2) ∧
    (envBase.clusterResp = .parsed [] → respEmpty.clusters = none) ∧
    respEmpty.clusters ≠ some [] :=
  short_resultset_no_cluster_call_empty_absent envBase ["bukhari"] reqPlain
    respEmpty search_hadiths_envBase_ok

/-- Witness for C10 at a concrete environment and request. -/
theorem total_results_eq_length_witness :
    respEmpty.total_results = respEmpty.results.length :=
  total_results_eq_length envBase ["bukhari"] reqPlain respEmpty
    search_hadiths_envBase_ok

end HadithGPT
